import Mathlib

/-!
Verification of the request-matching and secure-session coordination core of
the nairobi-aid-connect (SOS Nairobi) platform, against its natural-language
specification.

The repository ships the React client (src/src); the Python backend agents are
described by the design documents and README but their source is not present,
so backend operations are modelled from the spec where needed (each such
definition is marked `Modelled from the spec:`).  Client-side logic
(notification handling, accept handling) is embedded directly from
src/src/pages/Index.tsx.
-/

namespace SosNairobi

/-- Help categories, from the `request_type` enum `Medical | Legal | Shelter`
used across the client and the backend design. -/
inductive Category : Type
  | medical
  | legal
  | shelter
deriving DecidableEq, Repr

/-- Role of a chat participant, from `currentUserRoleInChat` in Index.tsx. -/
inductive Role : Type
  | requester
  | volunteer
deriving DecidableEq, Repr

/-- Coordinates, rationals standing for the JS numbers. -/
structure Coord : Type where
  lat : ℚ
  lng : ℚ
deriving DecidableEq, Repr

/-! ## Client model (embedded from src/src/pages/Index.tsx)

Strings model the JS string fields; the empty string models a missing or
falsy field (JS truthiness on strings). -/

/-- The `ChatSessionEstablishedMessage` interface of Index.tsx (lines 19-28):
a single message carrying BOTH per-party tokens. -/
structure ChatSessionEstablishedMessage : Type where
  chat_room_id : String
  assignment_id : String
  request_id : String
  volunteer_id : String
  requester_token : String
  volunteer_token : String
  timestamp : String
deriving DecidableEq, Repr

/-- A map hotspot entry (`MapHotspotData` in Index.tsx). -/
structure MapHotspotData : Type where
  id : String
  coordinates : Coord
  request_type : Category
  timestamp : String
deriving DecidableEq, Repr

/-- The chat-related slice of the Index component state:
`liveChatRoomId` and `currentUserChatToken`. -/
structure ClientChatState : Type where
  liveChatRoomId : Option String
  currentUserChatToken : Option String
deriving DecidableEq, Repr

/-- The Index component state relevant to notification and accept handling. -/
structure ClientState : Type where
  currentUserRoleInChat : Option Role
  currentVolunteerId : Option String
  myLastRequestId : Option String
  volunteerSessionToken : Option String
  mapHotspots : List MapHotspotData
  chat : ClientChatState
deriving DecidableEq, Repr

/-- The `notificationWs.current.onmessage` handler of Index.tsx (lines 74-92),
restricted to a parsed chat-establishment message.  The handler first checks
truthiness of `rawMessage.chat_room_id` and `rawMessage.request_id`; inside, a
volunteer adopts the room with the volunteer token when `volunteer_id` matches
its stored id, a requester adopts the room with the requester token when
`request_id` matches its last submitted request id; otherwise the state is
unchanged. -/
def handleNotificationMessage (s : ClientState)
    (m : ChatSessionEstablishedMessage) : ClientState :=
  if m.chat_room_id ≠ "" ∧ m.request_id ≠ "" then
    match s.currentUserRoleInChat with
    | some Role.volunteer =>
        if s.currentVolunteerId = some m.volunteer_id then
          { s with chat := ⟨some m.chat_room_id, some m.volunteer_token⟩ }
        else s
    | some Role.requester =>
        if s.myLastRequestId = some m.request_id then
          { s with chat := ⟨some m.chat_room_id, some m.requester_token⟩ }
        else s
    | none => s
  else s

/-- The success continuation of `handleAcceptRequest` in Index.tsx
(lines 198-209): on a successful accept of `requestId` the client removes the
matching hotspots (`prev.filter (h => h.id !== requestId)`) and changes
nothing else. -/
def handleAcceptRequestSuccess (s : ClientState) (requestId : String) :
    ClientState :=
  { s with mapHotspots := s.mapHotspots.filter (fun h => h.id ≠ requestId) }

/-! ## Request Intake (spec sections 4.2 and 6)

The backend IntakeAgent source is not in the repository; these definitions
are modelled from the spec. -/

/-- Modelled from the spec: the privacy transform of Request Intake.  The
missing backend IntakeAgent adds an independently drawn random offset,
bounded by the configured radius, to the latitude and to the longitude.  The
two offsets are the nondeterministic arguments. -/
def obfuscate (raw : Coord) (offLat offLng : ℚ) : Coord :=
  ⟨raw.lat + offLat, raw.lng + offLng⟩

/-- Componentwise bound: each coordinate of `a` is within `r` degrees of the
corresponding coordinate of `b` (the spec applies the radius independently to
latitude and longitude). -/
def withinRadius (r : ℚ) (a b : Coord) : Prop :=
  |a.lat - b.lat| ≤ r ∧ |a.lng - b.lng| ≤ r

instance (r : ℚ) (a b : Coord) : Decidable (withinRadius r a b) :=
  inferInstanceAs (Decidable (_ ∧ _))

/-- Status of a help request, spec section 3. -/
inductive RequestStatus : Type
  | new
  | assigned
  | closed
deriving DecidableEq, Repr

/-- A canonical help request, spec section 3: the stored coordinates are the
already obfuscated ones. -/
structure HelpRequest : Type where
  id : String
  category : Category
  coordinates : Coord
  createdAt : ℚ
  status : RequestStatus
deriving DecidableEq, Repr

/-- Body of `POST /api/v1/request/direct`, spec section 6. -/
structure DirectRequestBody : Type where
  category : String
  rawLocation : Coord
  text : String
deriving DecidableEq, Repr

/-- Parse the category field of a direct request body. -/
def parseCategory : String → Option Category
  | "Medical" => some Category.medical
  | "Legal" => some Category.legal
  | "Shelter" => some Category.shelter
  | _ => none

/-- A message published on the event bus (spec section 4.1); only the topic
and the carried request matter here. -/
structure BusMessage : Type where
  topic : String
  request : HelpRequest
deriving DecidableEq, Repr

/-- Result of the direct-request endpoint: the HTTP status, the optional
`requestId` of the response body, and the list of bus publications the call
performed. -/
structure DirectRequestResult : Type where
  httpStatus : Nat
  requestId : Option String
  published : List BusMessage
deriving DecidableEq, Repr

/-- Modelled from the spec: the missing backend handler of
`POST /api/v1/request/direct` (spec sections 4.2, 6 and 7).  A valid category
yields `202` with a fresh `requestId` and one publication of the obfuscated
request to `requests.new`; an invalid category yields `400` and publishes
nothing.  `freshId` and `now` stand for the generated id and the clock, and
the offsets are the nondeterministic draws of the privacy transform. -/
def requestDirect (body : DirectRequestBody) (freshId : String) (now : ℚ)
    (offLat offLng : ℚ) : DirectRequestResult :=
  match parseCategory body.category with
  | some c =>
      { httpStatus := 202
        requestId := some freshId
        published :=
          [⟨"requests.new",
            { id := freshId
              category := c
              coordinates := obfuscate body.rawLocation offLat offLng
              createdAt := now
              status := RequestStatus.new }⟩] }
  | none =>
      { httpStatus := 400, requestId := none, published := [] }

/-! ## Volunteer Registry (spec section 4.3)

The backend VerificationAgent and registry source is not in the repository;
these definitions are modelled from the spec.  Great-circle (haversine)
distance is transcendental, so the query is parametrised by the distance
function `d`; every theorem below holds for all `d`, in particular for the
haversine the spec names. -/

/-- Volunteer availability, spec section 3. -/
inductive Availability : Type
  | available
  | busy
  | offline
deriving DecidableEq, Repr

/-- A verified-volunteer record, spec section 3.  The id is numeric so that
the tie-break "lowest volunteer id" of spec section 4.3 is meaningful. -/
structure Volunteer : Type where
  id : ℕ
  skills : List Category
  verified : Bool
  availability : Availability
  loc : Coord
deriving DecidableEq, Repr

/-- Modelled from the spec: the filter of `findCandidates` (spec 4.3):
`verified = true ∧ availability = Available ∧ category ∈ skills` and distance
within the radius. -/
def eligible (d : Coord → Coord → ℚ) (q : Coord) (cat : Category)
    (radiusKm : ℚ) (v : Volunteer) : Bool :=
  v.verified && v.availability == Availability.available
    && decide (cat ∈ v.skills) && decide (d q v.loc ≤ radiusKm)

/-- Candidate order of spec 4.3: ascending distance from the query point,
ties broken by lowest volunteer id. -/
def candLE (d : Coord → Coord → ℚ) (q : Coord) (v w : Volunteer) : Prop :=
  d q v.loc < d q w.loc ∨ (d q v.loc = d q w.loc ∧ v.id ≤ w.id)

/-- Strict version of the candidate order, used to state that the output is
strictly increasing when ids are distinct. -/
def candLT (d : Coord → Coord → ℚ) (q : Coord) (v w : Volunteer) : Prop :=
  d q v.loc < d q w.loc ∨ (d q v.loc = d q w.loc ∧ v.id < w.id)

instance (d : Coord → Coord → ℚ) (q : Coord) : DecidableRel (candLE d q) :=
  fun _ _ => inferInstanceAs (Decidable (_ ∨ _))

instance (d : Coord → Coord → ℚ) (q : Coord) : DecidableRel (candLT d q) :=
  fun _ _ => inferInstanceAs (Decidable (_ ∨ _))

instance (d : Coord → Coord → ℚ) (q : Coord) : IsTotal Volunteer (candLE d q) where
  total v w := by
    rcases lt_trichotomy (d q v.loc) (d q w.loc) with h | h | h
    · exact Or.inl (Or.inl h)
    · rcases Nat.le_total v.id w.id with h2 | h2
      · exact Or.inl (Or.inr ⟨h, h2⟩)
      · exact Or.inr (Or.inr ⟨h.symm, h2⟩)
    · exact Or.inr (Or.inl h)

instance (d : Coord → Coord → ℚ) (q : Coord) : IsTrans Volunteer (candLE d q) where
  trans u v w huv hvw := by
    rcases huv with h1 | ⟨h1, h1i⟩
    · rcases hvw with h2 | ⟨h2, _⟩
      · exact Or.inl (h1.trans h2)
      · exact Or.inl (h2 ▸ h1)
    · rcases hvw with h2 | ⟨h2, h2i⟩
      · exact Or.inl (h1 ▸ h2)
      · exact Or.inr ⟨h1.trans h2, h1i.trans h2i⟩

/-- Modelled from the spec: `findCandidates(coords, category, radiusKm)` of
the missing backend registry (spec 4.3): one-shot query over the current
registry contents, filtered to eligible volunteers and ordered by ascending
distance with ties broken by lowest id. -/
def findCandidates (d : Coord → Coord → ℚ) (registry : List Volunteer)
    (coords : Coord) (cat : Category) (radiusKm : ℚ) : List Volunteer :=
  (registry.filter (eligible d coords cat radiusKm)).insertionSort (candLE d coords)

/-! ## Dispatcher and Assignment (spec sections 3, 4.4, 5 and 6)

The backend DispatcherAgent source is not in the repository; these
definitions are modelled from the spec.  Tokens are drawn from a space of
`2 ^ 128` values, the formal rendering of "at least 128 bits of entropy". -/

/-- Number of entropy bits the spec requires per token. -/
def tokenBits : ℕ := 128

/-- The space a fresh per-party token is drawn from. -/
abbrev Token := Fin (2 ^ 128)

/-- An assignment, spec section 3: the unique pairing of one request to one
volunteer, carrying freshly generated per-party secret tokens. -/
structure Assignment : Type where
  id : String
  requestId : String
  volunteerId : ℕ
  requesterToken : Token
  volunteerToken : Token
deriving DecidableEq

/-- Modelled from the spec: assignment creation by the missing backend
Dispatcher (spec 4.4 step 2), from two fresh random draws. -/
def mkAssignment (aid rid : String) (vid : ℕ) (r1 r2 : Token) : Assignment :=
  { id := aid, requestId := rid, volunteerId := vid
    requesterToken := r1, volunteerToken := r2 }

/-- Availability lookup in the registry association list. -/
def lookupAvail (l : List (ℕ × Availability)) (vid : ℕ) : Option Availability :=
  (l.find? (fun p => p.1 == vid)).map Prod.snd

/-- Set one volunteer availability in the registry association list. -/
def setAvail (l : List (ℕ × Availability)) (vid : ℕ) (a : Availability) :
    List (ℕ × Availability) :=
  l.map (fun p => if p.1 = vid then (p.1, a) else p)

/-- Result of one accept attempt, spec section 6:
`200 assignmentId`, `409 AlreadyAssigned`, or failure of the
Available→Busy transition (the CAS conflict of spec 4.4). -/
inductive AcceptResult : Type
  | ok (assignmentId : String)
  | alreadyAssigned
  | notAvailable
deriving DecidableEq

/-- Shared state contended by concurrent accepts of one request: the at most
one assignment of that request, and the registry availability map. -/
structure MatchState : Type where
  assignment : Option Assignment
  avail : List (ℕ × Availability)
deriving DecidableEq

/-- One concurrent accept attempt: the accepting volunteer and the fresh
values the attempt would use if it wins. -/
structure AcceptAttempt : Type where
  volunteerId : ℕ
  freshAssignmentId : String
  draw1 : Token
  draw2 : Token
deriving DecidableEq

/-- Modelled from the spec: one atomic accept/dispatch attempt against a
request (spec 4.4, 5 and 6).  The registry availability transition is
serialized (CAS semantics), so attempts execute atomically in some order: an
attempt finding the request already assigned receives `AlreadyAssigned`;
otherwise it claims the volunteer Available→Busy and creates the assignment
in the same atomic step. -/
def acceptAttempt (requestId : String) (st : MatchState) (a : AcceptAttempt) :
    MatchState × AcceptResult :=
  match st.assignment with
  | some _ => (st, AcceptResult.alreadyAssigned)
  | none =>
      match lookupAvail st.avail a.volunteerId with
      | some Availability.available =>
          ({ assignment :=
               some (mkAssignment a.freshAssignmentId requestId a.volunteerId
                 a.draw1 a.draw2)
             avail := setAvail st.avail a.volunteerId Availability.busy },
           AcceptResult.ok a.freshAssignmentId)
      | _ => (st, AcceptResult.notAvailable)

/-- Run a serialization of concurrent accept attempts, collecting each
attempt's result. -/
def runAccepts (requestId : String) (st : MatchState) :
    List AcceptAttempt → MatchState × List AcceptResult
  | [] => (st, [])
  | a :: rest =>
      let step := acceptAttempt requestId st a
      let tail := runAccepts requestId step.1 rest
      (tail.1, step.2 :: tail.2)

/-- Modelled from the spec: the CAS retry loop of Dispatcher candidate
selection (spec 4.4 step 1): walk the distance-ordered candidates, claim the
first whose Available→Busy transition succeeds, retrying with the
next-nearest on conflict. -/
def casClaim : List ℕ → List (ℕ × Availability) →
    Option ℕ × List (ℕ × Availability)
  | [], avail => (none, avail)
  | v :: vs, avail =>
      if lookupAvail avail v = some Availability.available then
        (some v, setAvail avail v Availability.busy)
      else casClaim vs avail

/-! ## Session Coordinator and Chat Relay (spec sections 4.5, 4.6 and 6)

The backend CommsAgent source is not in the repository; these definitions
are modelled from the spec.  The `onclose` classification at the end is
embedded from the client (src/src/components/ChatInterface.tsx). -/

/-- An ephemeral chat session, spec section 3, keyed for `(roomId, token)`
authentication.  `explicitEnd` records whether the session was closed by an
explicit end signal. -/
structure ChatSession : Type where
  roomId : String
  assignmentId : String
  requestId : String
  volunteerId : ℕ
  requesterToken : Token
  volunteerToken : Token
  createdAt : ℚ
  expiresAt : ℚ
  explicitEnd : Bool
deriving DecidableEq

/-- State owned by the Session Coordinator: live sessions, the registry
availability map, and the request status map. -/
structure CoordinatorState : Type where
  sessions : List ChatSession
  volunteers : List (ℕ × Availability)
  requests : List (String × RequestStatus)
deriving DecidableEq

/-- Modelled from the spec: session creation on `assignments.create`
(spec 4.5): generate a room id and set `expiresAt = now + TTL`. -/
def createSession (st : CoordinatorState) (a : Assignment) (roomId : String)
    (now ttl : ℚ) : CoordinatorState :=
  { st with
      sessions :=
        { roomId := roomId, assignmentId := a.id, requestId := a.requestId
          volunteerId := a.volunteerId, requesterToken := a.requesterToken
          volunteerToken := a.volunteerToken, createdAt := now
          expiresAt := now + ttl, explicitEnd := false } :: st.sessions }

/-- Role a `(roomId, token)` pair holds in one session, if any. -/
def sessionRole (roomId : String) (tok : Token) (s : ChatSession) : Option Role :=
  if s.roomId = roomId then
    if tok = s.requesterToken then some Role.requester
    else if tok = s.volunteerToken then some Role.volunteer
    else none
  else none

/-- Modelled from the spec: the `(roomId, token) → role` authentication
lookup of spec 4.5 and 4.6. -/
def authenticate (st : CoordinatorState) (roomId : String) (tok : Token) :
    Option Role :=
  st.sessions.findSome? (sessionRole roomId tok)

/-- Request status lookup. -/
def lookupRequest (l : List (String × RequestStatus)) (rid : String) :
    Option RequestStatus :=
  (l.find? (fun p => p.1 == rid)).map Prod.snd

/-- Release step of the sweeper: a volunteer owned by some expired session
that closed without an explicit end signal goes back to Available. -/
def releaseExpired (expired : List ChatSession) (p : ℕ × Availability) :
    ℕ × Availability :=
  match expired.any (fun s => !s.explicitEnd && s.volunteerId == p.1) with
  | true => (p.1, Availability.available)
  | false => p

/-- Close step of the sweeper: a request originating some expired session is
marked Closed. -/
def closeExpired (expired : List ChatSession) (p : String × RequestStatus) :
    String × RequestStatus :=
  match expired.any (fun s => s.requestId == p.1) with
  | true => (p.1, RequestStatus.closed)
  | false => p

/-- Modelled from the spec: the background sweeper (spec 4.5): purge every
session with `expiresAt ≤ now`, release the volunteer of a session that
closed without an explicit end signal back to Available, and mark the
originating request Closed. -/
def sweep (st : CoordinatorState) (now : ℚ) : CoordinatorState :=
  let expired := st.sessions.filter (fun s => decide (s.expiresAt ≤ now))
  { sessions := st.sessions.filter (fun s => decide (now < s.expiresAt))
    volunteers := st.volunteers.map (releaseExpired expired)
    requests := st.requests.map (closeExpired expired) }

/-- Outcome of a chat socket connection attempt. -/
inductive ConnectOutcome : Type
  | accepted (role : Role)
  | closed (code : ℕ)
deriving DecidableEq

/-- Modelled from the spec: the Relay connection contract (spec 4.6 and 6):
a known `(roomId, token)` pair is accepted with its role; an unknown pair is
rejected with the distinguished close code 4001. -/
def relayConnect (st : CoordinatorState) (roomId : String) (tok : Token) :
    ConnectOutcome :=
  match authenticate st roomId tok with
  | some r => ConnectOutcome.accepted r
  | none => ConnectOutcome.closed 4001

/-- Why a chat socket closed. -/
inductive CloseReason : Type
  | authFailure
  | cleanClose
  | transportLoss
deriving DecidableEq

/-- Modelled from the spec: the close code the relay uses for each close
reason (spec section 6): 4001 is reserved for authentication failure;
transport-level closes use the standard WebSocket codes (1000 clean close,
1006 abnormal loss). -/
def closeCode : CloseReason → ℕ
  | CloseReason.authFailure => 4001
  | CloseReason.cleanClose => 1000
  | CloseReason.transportLoss => 1006

/-- How the client shows a close to the user. -/
inductive ClientCloseStatus : Type
  | authFailed
  | disconnected
  | connectionLost
deriving DecidableEq

/-- The `ws.current.onclose` classification embedded from
src/src/components/ChatInterface.tsx (lines 129-143): code 4001 means
authentication failed, a clean close means a plain disconnect, anything else
is a transport loss. -/
def clientOnClose (code : ℕ) (wasClean : Bool) : ClientCloseStatus :=
  if code = 4001 then ClientCloseStatus.authFailed
  else if wasClean then ClientCloseStatus.disconnected
  else ClientCloseStatus.connectionLost

/-! ## Concrete fixtures used by counterexamples and witnesses -/

/-- A concrete volunteer-side client state: verified volunteer `v1`, no chat
open. -/
def volunteerClientState : ClientState :=
  { currentUserRoleInChat := some Role.volunteer
    currentVolunteerId := some "v1"
    myLastRequestId := none
    volunteerSessionToken := some "sess-tok"
    mapHotspots := []
    chat := ⟨none, none⟩ }

/-- A concrete requester-side client state: last submitted request `r1`, no
chat open. -/
def requesterClientState : ClientState :=
  { currentUserRoleInChat := some Role.requester
    currentVolunteerId := none
    myLastRequestId := some "r1"
    volunteerSessionToken := none
    mapHotspots := []
    chat := ⟨none, none⟩ }

/-- A concrete chat-establishment message for request `r1` and volunteer
`v1`, carrying both per-party tokens, exactly as the
`ChatSessionEstablishedMessage` shape of Index.tsx does. -/
def establishedBothTokens : ChatSessionEstablishedMessage :=
  { chat_room_id := "room1", assignment_id := "a1", request_id := "r1"
    volunteer_id := "v1", requester_token := "req-tok-1"
    volunteer_token := "vol-tok-1", timestamp := "2025-06-25T12:00:00Z" }

/-- The same message with an empty `request_id`, exercising the truthiness
guard of the notification handler. -/
def establishedEmptyRequestId : ChatSessionEstablishedMessage :=
  { chat_room_id := "room1", assignment_id := "a1", request_id := ""
    volunteer_id := "v1", requester_token := "req-tok-1"
    volunteer_token := "vol-tok-1", timestamp := "2025-06-25T12:00:00Z" }

/-- A concrete contended state: request unassigned, volunteers 1 and 2
available. -/
def contendedState : MatchState :=
  { assignment := none
    avail := [(1, Availability.available), (2, Availability.available)] }

/-- First of three concurrent accept attempts against the same request, by
volunteer 1. -/
def attemptA : AcceptAttempt := ⟨1, "as1", 0, 1⟩

/-- Second concurrent attempt, by volunteer 2. -/
def attemptB : AcceptAttempt := ⟨2, "as2", 2, 3⟩

/-- Third concurrent attempt, by volunteer 1 again. -/
def attemptC : AcceptAttempt := ⟨1, "as3", 4, 5⟩

/-- A concrete chat session created at time 0 with TTL 1 second, not ended
explicitly. -/
def expiredSessionFixture : ChatSession :=
  { roomId := "room1", assignmentId := "a1", requestId := "r1"
    volunteerId := 7, requesterToken := 0, volunteerToken := 1
    createdAt := 0, expiresAt := 1, explicitEnd := false }

/-- A concrete coordinator state holding that one session, its busy
volunteer and its assigned request. -/
def coordFixture : CoordinatorState :=
  { sessions := [expiredSessionFixture]
    volunteers := [(7, Availability.busy)]
    requests := [("r1", RequestStatus.assigned)] }

/-! ## Theorems -/

/-- C9 counterexample: the claim says a client in the volunteer role adopts
the room exactly when the message `volunteer_id` equals its stored volunteer
id.  Here the ids match and the room id is non-empty, yet the handler leaves
the state unchanged, because the message carries an empty `request_id` and
the handler first requires truthy `chat_room_id` and `request_id`. -/
theorem notification_adoption_guard_counterexample :
    volunteerClientState.currentUserRoleInChat = some Role.volunteer
    ∧ volunteerClientState.currentVolunteerId
        = some establishedEmptyRequestId.volunteer_id
    ∧ establishedEmptyRequestId.chat_room_id ≠ ""
    ∧ volunteerClientState.chat.liveChatRoomId = none
    ∧ handleNotificationMessage volunteerClientState establishedEmptyRequestId
        = volunteerClientState := by
  decide

/-- C9 (amended): for every message on the notification socket, the handler
leaves the identity state (role, volunteer id, last request id, session
token) and the hotspot list unchanged; provided the message carries a
non-empty `chat_room_id` and `request_id`, a volunteer-role client adopts the
room with the volunteer token exactly when the message `volunteer_id` equals
its stored volunteer id, a requester-role client adopts the room with the
requester token exactly when the message `request_id` equals its last
submitted request id, and in every other case the chat state is unchanged. -/
theorem notification_adoption_spec (s : ClientState)
    (m : ChatSessionEstablishedMessage) :
    ((handleNotificationMessage s m).currentUserRoleInChat = s.currentUserRoleInChat
      ∧ (handleNotificationMessage s m).currentVolunteerId = s.currentVolunteerId
      ∧ (handleNotificationMessage s m).myLastRequestId = s.myLastRequestId
      ∧ (handleNotificationMessage s m).volunteerSessionToken = s.volunteerSessionToken
      ∧ (handleNotificationMessage s m).mapHotspots = s.mapHotspots)
    ∧ (s.currentUserRoleInChat = some Role.volunteer →
        ((m.chat_room_id ≠ "" ∧ m.request_id ≠ ""
            ∧ s.currentVolunteerId = some m.volunteer_id) →
          (handleNotificationMessage s m).chat
            = ⟨some m.chat_room_id, some m.volunteer_token⟩)
        ∧ (¬(m.chat_room_id ≠ "" ∧ m.request_id ≠ ""
            ∧ s.currentVolunteerId = some m.volunteer_id) →
          (handleNotificationMessage s m).chat = s.chat))
    ∧ (s.currentUserRoleInChat = some Role.requester →
        ((m.chat_room_id ≠ "" ∧ m.request_id ≠ ""
            ∧ s.myLastRequestId = some m.request_id) →
          (handleNotificationMessage s m).chat
            = ⟨some m.chat_room_id, some m.requester_token⟩)
        ∧ (¬(m.chat_room_id ≠ "" ∧ m.request_id ≠ ""
            ∧ s.myLastRequestId = some m.request_id) →
          (handleNotificationMessage s m).chat = s.chat))
    ∧ (s.currentUserRoleInChat = none → handleNotificationMessage s m = s) := by
  unfold handleNotificationMessage
  by_cases hg : (m.chat_room_id ≠ "" ∧ m.request_id ≠ "")
  · rcases hrole : s.currentUserRoleInChat with _ | r
    · simp [hrole]
    · cases r
      · by_cases hm : s.myLastRequestId = some m.request_id
        · simp [hrole, hg, hm]
        · simp [hrole, hg, hm]
      · by_cases hm : s.currentVolunteerId = some m.volunteer_id
        · simp [hrole, hg, hm]
        · simp [hrole, hg, hm]
  · rcases hrole : s.currentUserRoleInChat with _ | r
    · simp [hrole, hg]
    · cases r <;> simp [hrole, hg] <;>
        exact fun h1 h2 => absurd ⟨h1, h2⟩ hg

/-- C10: when a volunteer accept of request `r` succeeds, the hotspot list
afterwards is the previous list with exactly the entries whose id equals `r`
removed — membership is characterized by that condition, the surviving
entries keep their relative order (sublist of the previous list) — and every
other piece of client session state (volunteer id, session token, role, last
request id, chat state) is unchanged. -/
theorem accept_success_frame (s : ClientState) (r : String) :
    (∀ h, h ∈ (handleAcceptRequestSuccess s r).mapHotspots
        ↔ (h ∈ s.mapHotspots ∧ h.id ≠ r))
    ∧ (handleAcceptRequestSuccess s r).mapHotspots.Sublist s.mapHotspots
    ∧ (∀ h ∈ (handleAcceptRequestSuccess s r).mapHotspots, h.id ≠ r)
    ∧ (handleAcceptRequestSuccess s r).currentVolunteerId = s.currentVolunteerId
    ∧ (handleAcceptRequestSuccess s r).volunteerSessionToken = s.volunteerSessionToken
    ∧ (handleAcceptRequestSuccess s r).currentUserRoleInChat = s.currentUserRoleInChat
    ∧ (handleAcceptRequestSuccess s r).myLastRequestId = s.myLastRequestId
    ∧ (handleAcceptRequestSuccess s r).chat = s.chat := by
  refine ⟨?_, ?_, ?_, rfl, rfl, rfl, rfl, rfl⟩
  · intro h
    simp [handleAcceptRequestSuccess, List.mem_filter, and_comm]
  · exact List.filter_sublist _
  · intro h hmem
    have := (List.mem_filter.mp hmem).2
    simpa using this

/-- C1 counterexample: the claim says the notification delivered to the
requester carries only the `requesterToken`.  In the embedded client
protocol a requester-role client receives and successfully processes a
single `ChatSessionEstablished` message that carries both non-empty
per-party tokens — the volunteer token `vol-tok-1` is present in the very
message the requester adopts its room from. -/
theorem notification_carries_both_tokens_counterexample :
    requesterClientState.currentUserRoleInChat = some Role.requester
    ∧ (handleNotificationMessage requesterClientState establishedBothTokens).chat
        = ⟨some "room1", some "req-tok-1"⟩
    ∧ establishedBothTokens.requester_token = "req-tok-1"
    ∧ establishedBothTokens.volunteer_token = "vol-tok-1"
    ∧ establishedBothTokens.volunteer_token ≠ "" := by
  decide

/-- C1 (amended): the `SessionEstablished` notification is one shared
message carrying both per-party tokens, delivered on the common notification
feed and self-filtered by each client; what holds is that a client only ever
stores the token of its own role — a volunteer-role client never stores the
requester token, a requester-role client never stores the volunteer token,
and a client with no role never changes state. -/
theorem notification_self_filter_scoping (s : ClientState)
    (m : ChatSessionEstablishedMessage) :
    (s.currentUserRoleInChat = some Role.volunteer →
      (handleNotificationMessage s m).chat.currentUserChatToken
          = s.chat.currentUserChatToken
      ∨ (handleNotificationMessage s m).chat.currentUserChatToken
          = some m.volunteer_token)
    ∧ (s.currentUserRoleInChat = some Role.requester →
      (handleNotificationMessage s m).chat.currentUserChatToken
          = s.chat.currentUserChatToken
      ∨ (handleNotificationMessage s m).chat.currentUserChatToken
          = some m.requester_token)
    ∧ (s.currentUserRoleInChat = none → handleNotificationMessage s m = s) := by
  unfold handleNotificationMessage
  by_cases hg : (m.chat_room_id ≠ "" ∧ m.request_id ≠ "")
  · rcases hrole : s.currentUserRoleInChat with _ | r
    · simp [hrole]
    · cases r
      · by_cases hm : s.myLastRequestId = some m.request_id <;>
          simp [hrole, hg, hm]
      · by_cases hm : s.currentVolunteerId = some m.volunteer_id <;>
          simp [hrole, hg, hm]
  · simp [hg]

/-- C7: a POST to /api/v1/request/direct returns 202 with a requestId body
exactly when the category is valid, returns 400 with no requestId when the
category is invalid, and a validation failure publishes nothing to the bus
while a valid request publishes exactly one message, to `requests.new`. -/
theorem request_direct_status_spec (b : DirectRequestBody) (freshId : String)
    (now offLat offLng : ℚ) :
    ((parseCategory b.category).isSome →
        (requestDirect b freshId now offLat offLng).httpStatus = 202
        ∧ (requestDirect b freshId now offLat offLng).requestId = some freshId
        ∧ (requestDirect b freshId now offLat offLng).published.length = 1
        ∧ ∀ msg ∈ (requestDirect b freshId now offLat offLng).published,
            msg.topic = "requests.new")
    ∧ (parseCategory b.category = none →
        (requestDirect b freshId now offLat offLng).httpStatus = 400
        ∧ (requestDirect b freshId now offLat offLng).requestId = none
        ∧ (requestDirect b freshId now offLat offLng).published = [])
    ∧ ((requestDirect b freshId now offLat offLng).httpStatus = 202
        ∨ (requestDirect b freshId now offLat offLng).httpStatus = 400) := by
  rcases hcat : parseCategory b.category with _ | c <;>
    simp [requestDirect, hcat]

/-- C4: the intake privacy transform adds the two independently drawn
offsets, each bounded by the configured radius, to latitude and longitude,
so the obfuscated coordinate lies within the radius of the true coordinate
(componentwise, as the spec prescribes); distinct offset draws produce
distinct outputs; and the output does not determine the true location — any
candidate coordinate within the radius of the output is consistent with it
under some admissible draw, so no operation can recover the true location
from the obfuscated one. -/
theorem obfuscation_privacy_spec (raw : Coord) (radius offLat offLng : ℚ)
    (h1 : |offLat| ≤ radius) (h2 : |offLng| ≤ radius) :
    withinRadius radius (obfuscate raw offLat offLng) raw
    ∧ (∀ oLat oLng oLat2 oLng2 : ℚ, (oLat, oLng) ≠ (oLat2, oLng2) →
        obfuscate raw oLat oLng ≠ obfuscate raw oLat2 oLng2)
    ∧ (∀ c : Coord, withinRadius radius (obfuscate raw offLat offLng) c →
        ∃ a b : ℚ, |a| ≤ radius ∧ |b| ≤ radius
          ∧ obfuscate c a b = obfuscate raw offLat offLng) := by
  refine ⟨⟨?_, ?_⟩, ?_, ?_⟩
  · simpa [obfuscate, withinRadius] using h1
  · simpa [obfuscate, withinRadius] using h2
  · intro oLat oLng oLat2 oLng2 hne heq
    apply hne
    have hlat : raw.lat + oLat = raw.lat + oLat2 := congrArg Coord.lat heq
    have hlng : raw.lng + oLng = raw.lng + oLng2 := congrArg Coord.lng heq
    have : oLat = oLat2 := by linarith
    have : oLng = oLng2 := by linarith
    simp_all
  · intro c hc
    refine ⟨(obfuscate raw offLat offLng).lat - c.lat,
            (obfuscate raw offLat offLng).lng - c.lng, hc.1, hc.2, ?_⟩
    simp [obfuscate]

/-- C4 witness: radius 1/500 of a degree, offsets 1/1000 and -1/750, true
location the Nairobi CBD coordinate. -/
theorem obfuscation_privacy_spec_witness :
    |((1 : ℚ)/1000)| ≤ 1/500 ∧ |(-(1 : ℚ)/750)| ≤ 1/500
    ∧ (withinRadius (1/500)
          (obfuscate ⟨-(12921 : ℚ)/10000, (368219 : ℚ)/10000⟩ (1/1000) (-(1 : ℚ)/750))
          ⟨-(12921 : ℚ)/10000, (368219 : ℚ)/10000⟩
        ∧ (∀ oLat oLng oLat2 oLng2 : ℚ, (oLat, oLng) ≠ (oLat2, oLng2) →
            obfuscate ⟨-(12921 : ℚ)/10000, (368219 : ℚ)/10000⟩ oLat oLng
              ≠ obfuscate ⟨-(12921 : ℚ)/10000, (368219 : ℚ)/10000⟩ oLat2 oLng2)
        ∧ (∀ c : Coord,
            withinRadius (1/500)
              (obfuscate ⟨-(12921 : ℚ)/10000, (368219 : ℚ)/10000⟩ (1/1000) (-(1 : ℚ)/750)) c →
            ∃ a b : ℚ, |a| ≤ 1/500 ∧ |b| ≤ 1/500
              ∧ obfuscate c a b
                  = obfuscate ⟨-(12921 : ℚ)/10000, (368219 : ℚ)/10000⟩ (1/1000) (-(1 : ℚ)/750))) :=
  ⟨by norm_num [abs_le], by norm_num [abs_le],
    obfuscation_privacy_spec ⟨-(12921 : ℚ)/10000, (368219 : ℚ)/10000⟩ (1/500)
      (1/1000) (-(1 : ℚ)/750) (by norm_num [abs_le]) (by norm_num [abs_le])⟩

/-- C8: an assignment built from two fresh random draws carries the two
per-party tokens verbatim, they are distinct whenever the draws are
distinct, and each token ranges over a space of `2 ^ 128` values — the
formal rendering of "at least 128 bits of entropy" per token. -/
theorem assignment_tokens_spec (aid rid : String) (vid : ℕ) (r1 r2 : Token)
    (h : r1 ≠ r2) :
    (mkAssignment aid rid vid r1 r2).requesterToken
        ≠ (mkAssignment aid rid vid r1 r2).volunteerToken
    ∧ (mkAssignment aid rid vid r1 r2).requesterToken = r1
    ∧ (mkAssignment aid rid vid r1 r2).volunteerToken = r2
    ∧ 2 ^ tokenBits ≤ Fintype.card Token :=
  ⟨h, rfl, rfl, by rw [Fintype.card_fin]; exact Nat.le_refl _⟩

/-- C8 witness: two concrete distinct draws. -/
theorem assignment_tokens_spec_witness :
    ((0 : Token) ≠ (1 : Token))
    ∧ ((mkAssignment "a1" "r1" 7 0 1).requesterToken
          ≠ (mkAssignment "a1" "r1" 7 0 1).volunteerToken
        ∧ (mkAssignment "a1" "r1" 7 0 1).requesterToken = 0
        ∧ (mkAssignment "a1" "r1" 7 0 1).volunteerToken = 1
        ∧ 2 ^ tokenBits ≤ Fintype.card Token) :=
  ⟨by decide, assignment_tokens_spec "a1" "r1" 7 0 1 (by decide)⟩

/-- C6: a chat connection with a `(roomId, token)` pair is accepted with a
role exactly when some live session knows the pair; an unknown pair is
rejected with close code 4001 and no other close code is ever produced by
the connection attempt; 4001 is reserved for authentication failure among
the close reasons (transport-level closes use 1000 and 1006); and the
embedded client close handler classifies a close as an authentication
failure exactly when the code is 4001, so a bad session is always
distinguishable from a transient network failure. -/
theorem relay_auth_close_spec (st : CoordinatorState) (roomId : String)
    (tok : Token) :
    (∀ r, relayConnect st roomId tok = ConnectOutcome.accepted r
        ↔ authenticate st roomId tok = some r)
    ∧ (relayConnect st roomId tok = ConnectOutcome.closed 4001
        ↔ authenticate st roomId tok = none)
    ∧ (authenticate st roomId tok = none
        ↔ ∀ s ∈ st.sessions, sessionRole roomId tok s = none)
    ∧ (∀ c, relayConnect st roomId tok = ConnectOutcome.closed c → c = 4001)
    ∧ (∀ reason, closeCode reason = 4001 ↔ reason = CloseReason.authFailure)
    ∧ (∀ wasClean, clientOnClose 4001 wasClean = ClientCloseStatus.authFailed)
    ∧ (∀ code wasClean,
        clientOnClose code wasClean = ClientCloseStatus.authFailed → code = 4001) := by
  refine ⟨?_, ?_, ?_, ?_, ?_, ?_, ?_⟩
  · intro r
    rcases h : authenticate st roomId tok with _ | r2 <;>
      simp [relayConnect, h]
  · rcases h : authenticate st roomId tok with _ | r2 <;>
      simp [relayConnect, h]
  · simp [authenticate, List.findSome?_eq_none_iff]
  · intro c
    rcases h : authenticate st roomId tok with _ | r2 <;>
      simp [relayConnect, h]
    omega
  · intro reason
    cases reason <;> simp [closeCode]
  · intro wasClean
    simp [clientOnClose]
  · intro code wasClean h
    by_contra hne
    rcases hb : wasClean <;> simp [clientOnClose, hne, hb] at h

/-- Helper: once the request is assigned, every further accept attempt
receives `AlreadyAssigned` and the state is unchanged. -/
theorem runAccepts_of_assigned (requestId : String) (st : MatchState)
    (x : Assignment) (hx : st.assignment = some x) :
    ∀ l : List AcceptAttempt,
      runAccepts requestId st l
        = (st, l.map fun _ => AcceptResult.alreadyAssigned)
  | [] => by simp [runAccepts]
  | a :: rest => by
      simp [runAccepts, acceptAttempt, hx,
        runAccepts_of_assigned requestId st x hx rest]

/-- Helper: setting one volunteer availability is visible to a lookup of
that volunteer, provided the volunteer is registered. -/
theorem lookupAvail_setAvail_self (l : List (ℕ × Availability)) (vid : ℕ)
    (a : Availability) (h : (lookupAvail l vid).isSome) :
    lookupAvail (setAvail l vid a) vid = some a := by
  unfold lookupAvail setAvail
  rw [List.find?_map]
  have hcomp : ((fun p : ℕ × Availability => p.1 == vid) ∘
      fun p => if p.1 = vid then (p.1, a) else p)
      = fun p : ℕ × Availability => p.1 == vid := by
    funext p
    by_cases hp : p.1 = vid <;> simp [hp]
  rw [hcomp]
  unfold lookupAvail at h
  rcases hf : l.find? (fun p => p.1 == vid) with _ | p0
  · rw [hf] at h
    simp at h
  · have hp0 : p0.1 = vid := by simpa using List.find?_some hf
    obtain ⟨k, av⟩ := p0
    simp only at hp0
    rw [hf]
    simp [hp0]

/-- Helper: the CAS retry loop claims exactly the first candidate, in the
given order, whose availability is currently Available. -/
theorem casClaim_claims_first (cands : List ℕ) (avail : List (ℕ × Availability)) :
    (casClaim cands avail).1
      = cands.find? (fun v => lookupAvail avail v == some Availability.available) := by
  induction cands with
  | nil => simp [casClaim]
  | cons v vs ih =>
      by_cases hv : lookupAvail avail v = some Availability.available
      · simp [casClaim, hv]
      · simp [casClaim, hv, ih]

/-- C2: for a request with no assignment and any serialization of concurrent
accept attempts, the first attempt (whose volunteer is an Available
candidate) is the only one to succeed: it creates the one assignment of the
request and transitions its volunteer Available→Busy atomically, every later
attempt receives `AlreadyAssigned`, and the Dispatcher CAS loop claims the
first candidate whose Available→Busy transition succeeds, retrying with the
next-nearest candidate on conflict. -/
theorem concurrent_accept_arbitration (requestId : String) (st : MatchState)
    (a : AcceptAttempt) (rest : List AcceptAttempt)
    (h0 : st.assignment = none)
    (h1 : lookupAvail st.avail a.volunteerId = some Availability.available) :
    (runAccepts requestId st (a :: rest)).2
        = AcceptResult.ok a.freshAssignmentId
            :: rest.map (fun _ => AcceptResult.alreadyAssigned)
    ∧ (runAccepts requestId st (a :: rest)).1.assignment
        = some (mkAssignment a.freshAssignmentId requestId a.volunteerId
            a.draw1 a.draw2)
    ∧ lookupAvail (runAccepts requestId st (a :: rest)).1.avail a.volunteerId
        = some Availability.busy
    ∧ (∀ cands avail, (casClaim cands avail).1
        = cands.find? (fun v => lookupAvail avail v == some Availability.available)) := by
  have hstep : acceptAttempt requestId st a
      = ({ assignment := some (mkAssignment a.freshAssignmentId requestId
              a.volunteerId a.draw1 a.draw2)
           avail := setAvail st.avail a.volunteerId Availability.busy },
         AcceptResult.ok a.freshAssignmentId) := by
    simp [acceptAttempt, h0, h1]
  have hrest := runAccepts_of_assigned requestId
    { assignment := some (mkAssignment a.freshAssignmentId requestId
        a.volunteerId a.draw1 a.draw2)
      avail := setAvail st.avail a.volunteerId Availability.busy }
    (mkAssignment a.freshAssignmentId requestId a.volunteerId a.draw1 a.draw2)
    rfl rest
  refine ⟨?_, ?_, ?_, casClaim_claims_first⟩
  · simp [runAccepts, hstep, hrest]
  · simp [runAccepts, hstep, hrest]
  · simp only [runAccepts, hstep, hrest]
    exact lookupAvail_setAvail_self st.avail a.volunteerId Availability.busy
      (by simp [h1])

/-- C2 witness: three concurrent accepts of one request by volunteers 1, 2
and 1; the first wins, the other two receive AlreadyAssigned. -/
theorem concurrent_accept_arbitration_witness :
    contendedState.assignment = none
    ∧ lookupAvail contendedState.avail attemptA.volunteerId
        = some Availability.available
    ∧ ((runAccepts "r1" contendedState [attemptA, attemptB, attemptC]).2
          = AcceptResult.ok attemptA.freshAssignmentId
              :: [attemptB, attemptC].map (fun _ => AcceptResult.alreadyAssigned)
        ∧ (runAccepts "r1" contendedState [attemptA, attemptB, attemptC]).1.assignment
            = some (mkAssignment attemptA.freshAssignmentId "r1"
                attemptA.volunteerId attemptA.draw1 attemptA.draw2)
        ∧ lookupAvail
            (runAccepts "r1" contendedState [attemptA, attemptB, attemptC]).1.avail
            attemptA.volunteerId = some Availability.busy
        ∧ (∀ cands avail, (casClaim cands avail).1
            = cands.find? (fun v => lookupAvail avail v == some Availability.available))) :=
  ⟨rfl, rfl,
    concurrent_accept_arbitration "r1" contendedState attemptA
      [attemptB, attemptC] rfl rfl⟩

/-- C3: `findCandidates` returns exactly the verified, Available volunteers
that carry the requested category and lie within the radius, ordered by
ascending distance from the query point with ties broken by lowest volunteer
id (strictly increasing order whenever registry ids are distinct); a
volunteer outside the radius or lacking the requested skill never appears.
The great-circle distance enters as the parameter `d`, so the statement
holds for the haversine distance in particular. -/
theorem findCandidates_spec (d : Coord → Coord → ℚ) (registry : List Volunteer)
    (q : Coord) (cat : Category) (radiusKm : ℚ) :
    (∀ v, v ∈ findCandidates d registry q cat radiusKm ↔
        (v ∈ registry ∧ v.verified = true
          ∧ v.availability = Availability.available
          ∧ cat ∈ v.skills ∧ d q v.loc ≤ radiusKm))
    ∧ (findCandidates d registry q cat radiusKm).Sorted (candLE d q)
    ∧ ((registry.map Volunteer.id).Nodup →
        (findCandidates d registry q cat radiusKm).Pairwise (candLT d q))
    ∧ (∀ v ∈ findCandidates d registry q cat radiusKm,
        d q v.loc ≤ radiusKm ∧ cat ∈ v.skills) := by
  have hmem : ∀ v, v ∈ findCandidates d registry q cat radiusKm ↔
      (v ∈ registry ∧ v.verified = true
        ∧ v.availability = Availability.available
        ∧ cat ∈ v.skills ∧ d q v.loc ≤ radiusKm) := by
    intro v
    unfold findCandidates
    rw [List.mem_insertionSort, List.mem_filter]
    simp [eligible, and_assoc]
  refine ⟨hmem, List.sorted_insertionSort _ _, ?_, ?_⟩
  · intro hnd
    have hperm : List.Perm (findCandidates d registry q cat radiusKm)
        (registry.filter (eligible d q cat radiusKm)) :=
      List.perm_insertionSort _ _
    have hsub : (registry.filter (eligible d q cat radiusKm)).Sublist registry :=
      List.filter_sublist _
    have hnd2 : ((registry.filter (eligible d q cat radiusKm)).map Volunteer.id).Nodup :=
      (hsub.map Volunteer.id).nodup hnd
    have hnd3 : ((findCandidates d registry q cat radiusKm).map Volunteer.id).Nodup :=
      ((hperm.map Volunteer.id).nodup_iff).mpr hnd2
    have hpw : (findCandidates d registry q cat radiusKm).Pairwise
        (fun a b => a.id ≠ b.id) := List.pairwise_map.mp hnd3
    have hs : (findCandidates d registry q cat radiusKm).Pairwise (candLE d q) :=
      List.sorted_insertionSort _ _
    refine (hs.and hpw).imp ?_
    rintro a b ⟨hle | ⟨heq, hidle⟩, hne⟩
    · exact Or.inl hle
    · exact Or.inr ⟨heq, lt_of_le_of_ne hidle hne⟩
  · intro v hv
    have h := (hmem v).mp hv
    exact ⟨h.2.2.2.2, h.2.2.2.1⟩

/-- C3 witness: a concrete registry of four volunteers (one unverified, one
busy, one out of range) queried with a squared-difference distance function;
ids are distinct, so the output is strictly ordered. -/
theorem findCandidates_spec_witness :
    ([{ id := 3, skills := [Category.medical], verified := true
        availability := Availability.available, loc := ⟨1, 0⟩ },
      { id := 1, skills := [Category.medical], verified := true
        availability := Availability.available, loc := ⟨2, 0⟩ },
      { id := 2, skills := [Category.medical], verified := false
        availability := Availability.available, loc := ⟨0, 0⟩ },
      { id := 4, skills := [Category.legal], verified := true
        availability := Availability.available, loc := ⟨0, 0⟩ }].map
          Volunteer.id).Nodup
    ∧ ((∀ v, v ∈ findCandidates
          (fun p r => (p.lat - r.lat) ^ 2 + (p.lng - r.lng) ^ 2)
          [{ id := 3, skills := [Category.medical], verified := true
             availability := Availability.available, loc := ⟨1, 0⟩ },
           { id := 1, skills := [Category.medical], verified := true
             availability := Availability.available, loc := ⟨2, 0⟩ },
           { id := 2, skills := [Category.medical], verified := false
             availability := Availability.available, loc := ⟨0, 0⟩ },
           { id := 4, skills := [Category.legal], verified := true
             availability := Availability.available, loc := ⟨0, 0⟩ }]
          ⟨0, 0⟩ Category.medical 5 ↔
          (v ∈ [{ id := 3, skills := [Category.medical], verified := true
                  availability := Availability.available, loc := ⟨1, 0⟩ },
                { id := 1, skills := [Category.medical], verified := true
                  availability := Availability.available, loc := ⟨2, 0⟩ },
                { id := 2, skills := [Category.medical], verified := false
                  availability := Availability.available, loc := ⟨0, 0⟩ },
                { id := 4, skills := [Category.legal], verified := true
                  availability := Availability.available, loc := ⟨0, 0⟩ }]
            ∧ v.verified = true
            ∧ v.availability = Availability.available
            ∧ Category.medical ∈ v.skills
            ∧ (fun p r => (p.lat - r.lat) ^ 2 + (p.lng - r.lng) ^ 2)
                (⟨0, 0⟩ : Coord) v.loc ≤ 5))
        ∧ (findCandidates (fun p r => (p.lat - r.lat) ^ 2 + (p.lng - r.lng) ^ 2)
            [{ id := 3, skills := [Category.medical], verified := true
               availability := Availability.available, loc := ⟨1, 0⟩ },
             { id := 1, skills := [Category.medical], verified := true
               availability := Availability.available, loc := ⟨2, 0⟩ },
             { id := 2, skills := [Category.medical], verified := false
               availability := Availability.available, loc := ⟨0, 0⟩ },
             { id := 4, skills := [Category.legal], verified := true
               availability := Availability.available, loc := ⟨0, 0⟩ }]
            ⟨0, 0⟩ Category.medical 5).Sorted
              (candLE (fun p r => (p.lat - r.lat) ^ 2 + (p.lng - r.lng) ^ 2) ⟨0, 0⟩)
        ∧ (([{ id := 3, skills := [Category.medical], verified := true
               availability := Availability.available, loc := ⟨1, 0⟩ },
             { id := 1, skills := [Category.medical], verified := true
               availability := Availability.available, loc := ⟨2, 0⟩ },
             { id := 2, skills := [Category.medical], verified := false
               availability := Availability.available, loc := ⟨0, 0⟩ },
             { id := 4, skills := [Category.legal], verified := true
               availability := Availability.available, loc := ⟨0, 0⟩ }].map
                Volunteer.id).Nodup →
            (findCandidates (fun p r => (p.lat - r.lat) ^ 2 + (p.lng - r.lng) ^ 2)
              [{ id := 3, skills := [Category.medical], verified := true
                 availability := Availability.available, loc := ⟨1, 0⟩ },
               { id := 1, skills := [Category.medical], verified := true
                 availability := Availability.available, loc := ⟨2, 0⟩ },
               { id := 2, skills := [Category.medical], verified := false
                 availability := Availability.available, loc := ⟨0, 0⟩ },
               { id := 4, skills := [Category.legal], verified := true
                 availability := Availability.available, loc := ⟨0, 0⟩ }]
              ⟨0, 0⟩ Category.medical 5).Pairwise
                (candLT (fun p r => (p.lat - r.lat) ^ 2 + (p.lng - r.lng) ^ 2) ⟨0, 0⟩))
        ∧ (∀ v ∈ findCandidates
              (fun p r => (p.lat - r.lat) ^ 2 + (p.lng - r.lng) ^ 2)
              [{ id := 3, skills := [Category.medical], verified := true
                 availability := Availability.available, loc := ⟨1, 0⟩ },
               { id := 1, skills := [Category.medical], verified := true
                 availability := Availability.available, loc := ⟨2, 0⟩ },
               { id := 2, skills := [Category.medical], verified := false
                 availability := Availability.available, loc := ⟨0, 0⟩ },
               { id := 4, skills := [Category.legal], verified := true
                 availability := Availability.available, loc := ⟨0, 0⟩ }]
              ⟨0, 0⟩ Category.medical 5,
            (fun p r => (p.lat - r.lat) ^ 2 + (p.lng - r.lng) ^ 2)
                (⟨0, 0⟩ : Coord) v.loc ≤ 5
              ∧ Category.medical ∈ v.skills)) :=
  ⟨by decide,
    findCandidates_spec (fun p r => (p.lat - r.lat) ^ 2 + (p.lng - r.lng) ^ 2)
      [{ id := 3, skills := [Category.medical], verified := true
         availability := Availability.available, loc := ⟨1, 0⟩ },
       { id := 1, skills := [Category.medical], verified := true
         availability := Availability.available, loc := ⟨2, 0⟩ },
       { id := 2, skills := [Category.medical], verified := false
         availability := Availability.available, loc := ⟨0, 0⟩ },
       { id := 4, skills := [Category.legal], verified := true
         availability := Availability.available, loc := ⟨0, 0⟩ }]
      ⟨0, 0⟩ Category.medical 5⟩

/-- Helper: after a sweep at time `t`, authentication fails for a room all
of whose sessions had expired by `t`. -/
theorem authenticate_sweep_expired (st : CoordinatorState) (t : ℚ)
    (roomId : String) (tok : Token)
    (h : ∀ s ∈ st.sessions, s.roomId = roomId → s.expiresAt ≤ t) :
    authenticate (sweep st t) roomId tok = none := by
  unfold authenticate sweep
  simp only
  rw [List.findSome?_eq_none_iff]
  intro s hs
  have hmem := List.mem_filter.mp hs
  have hlt : t < s.expiresAt := by simpa using hmem.2
  have hroom : s.roomId ≠ roomId := fun hr =>
    absurd (h s hmem.1 hr) (not_le.mpr hlt)
  simp [sessionRole, hroom]

/-- Helper: the release step never changes the key of an entry. -/
theorem releaseExpired_fst (e : List ChatSession) (p : ℕ × Availability) :
    (releaseExpired e p).1 = p.1 := by
  unfold releaseExpired
  cases e.any (fun s => !s.explicitEnd && s.volunteerId == p.1) <;> rfl

/-- Helper: the close step never changes the key of an entry. -/
theorem closeExpired_fst (e : List ChatSession) (p : String × RequestStatus) :
    (closeExpired e p).1 = p.1 := by
  unfold closeExpired
  cases e.any (fun s => s.requestId == p.1) <;> rfl

/-- Helper: a key lookup commutes with a key-preserving entry map. -/
theorem find?_key_map {α β : Type} [BEq α] (l : List (α × β))
    (f : α × β → α × β) (hf : ∀ p, (f p).1 = p.1) (k : α) :
    (l.map f).find? (fun p => p.1 == k)
      = (l.find? (fun p => p.1 == k)).map f := by
  rw [List.find?_map]
  have hpred : ((fun p : α × β => p.1 == k) ∘ f)
      = fun p : α × β => p.1 == k := by
    funext p
    simp only [Function.comp_apply, hf p]
  rw [hpred]

/-- Helper: the sweep releases the volunteer of an expired session that was
not explicitly ended back to Available. -/
theorem lookupAvail_sweep_release (st : CoordinatorState) (t : ℚ)
    (s : ChatSession) (hs : s ∈ st.sessions) (hexp : s.expiresAt ≤ t)
    (hend : s.explicitEnd = false)
    (hreg : (lookupAvail st.volunteers s.volunteerId).isSome) :
    lookupAvail (sweep st t).volunteers s.volunteerId
      = some Availability.available := by
  have hvols : (sweep st t).volunteers = st.volunteers.map
      (releaseExpired (st.sessions.filter (fun s2 => decide (s2.expiresAt ≤ t)))) :=
    rfl
  rw [hvols]
  unfold lookupAvail
  rw [find?_key_map _ _ (releaseExpired_fst _) _]
  unfold lookupAvail at hreg
  rcases hf : st.volunteers.find? (fun p => p.1 == s.volunteerId) with _ | p0
  · rw [hf] at hreg
    simp at hreg
  · have hp0 : p0.1 = s.volunteerId := by simpa using List.find?_some hf
    have hany : (st.sessions.filter (fun s2 => decide (s2.expiresAt ≤ t))).any
        (fun s2 => !s2.explicitEnd && s2.volunteerId == p0.1) = true := by
      rw [List.any_eq_true]
      exact ⟨s, List.mem_filter.mpr ⟨hs, by simpa using hexp⟩,
        by simp [hend, hp0]⟩
    rw [hf]
    simp only [Option.map_some']
    unfold releaseExpired
    rw [hany]

/-- Helper: the sweep marks the originating request of an expired session
Closed. -/
theorem lookupRequest_sweep_closed (st : CoordinatorState) (t : ℚ)
    (s : ChatSession) (hs : s ∈ st.sessions) (hexp : s.expiresAt ≤ t)
    (hreg : (lookupRequest st.requests s.requestId).isSome) :
    lookupRequest (sweep st t).requests s.requestId
      = some RequestStatus.closed := by
  have hreqs : (sweep st t).requests = st.requests.map
      (closeExpired (st.sessions.filter (fun s2 => decide (s2.expiresAt ≤ t)))) :=
    rfl
  rw [hreqs]
  unfold lookupRequest
  rw [find?_key_map _ _ (closeExpired_fst _) _]
  unfold lookupRequest at hreg
  rcases hf : st.requests.find? (fun p => p.1 == s.requestId) with _ | p0
  · rw [hf] at hreg
    simp at hreg
  · have hp0 : p0.1 = s.requestId := by simpa using List.find?_some hf
    have hany : (st.sessions.filter (fun s2 => decide (s2.expiresAt ≤ t))).any
        (fun s2 => s2.requestId == p0.1) = true := by
      rw [List.any_eq_true]
      exact ⟨s, List.mem_filter.mpr ⟨hs, by simpa using hexp⟩, by simp [hp0]⟩
    rw [hf]
    simp only [Option.map_some']
    unfold closeExpired
    rw [hany]

/-- C5: every created session has `expiresAt = createdAt + TTL`; once every
session of a room has expired, a sweep at or after expiry makes
authentication against the room's `(roomId, token)` pairs fail; a sweep
reverts the volunteer of an expired, not explicitly ended session to
Available; and a sweep marks the originating request of an expired session
Closed. -/
theorem chat_session_ttl_spec :
    (∀ (st : CoordinatorState) (a : Assignment) (roomId : String) (now ttl : ℚ),
      ∃ s, (createSession st a roomId now ttl).sessions = s :: st.sessions
        ∧ s.createdAt = now ∧ s.expiresAt = s.createdAt + ttl
        ∧ s.roomId = roomId ∧ s.volunteerId = a.volunteerId
        ∧ s.requestId = a.requestId ∧ s.requesterToken = a.requesterToken
        ∧ s.volunteerToken = a.volunteerToken ∧ s.explicitEnd = false)
    ∧ (∀ (st : CoordinatorState) (t : ℚ) (roomId : String) (tok : Token),
        (∀ s ∈ st.sessions, s.roomId = roomId → s.expiresAt ≤ t) →
        authenticate (sweep st t) roomId tok = none)
    ∧ (∀ (st : CoordinatorState) (t : ℚ) (s : ChatSession),
        s ∈ st.sessions → s.expiresAt ≤ t → s.explicitEnd = false →
        (lookupAvail st.volunteers s.volunteerId).isSome →
        lookupAvail (sweep st t).volunteers s.volunteerId
          = some Availability.available)
    ∧ (∀ (st : CoordinatorState) (t : ℚ) (s : ChatSession),
        s ∈ st.sessions → s.expiresAt ≤ t →
        (lookupRequest st.requests s.requestId).isSome →
        lookupRequest (sweep st t).requests s.requestId
          = some RequestStatus.closed) := by
  refine ⟨?_, authenticate_sweep_expired, lookupAvail_sweep_release,
    lookupRequest_sweep_closed⟩
  intro st a roomId now ttl
  exact ⟨_, rfl, rfl, rfl, rfl, rfl, rfl, rfl, rfl, rfl⟩

/-- C5 witness: the session of `coordFixture`, created at time 0 with TTL 1
second, is exactly what `createSession` yields, and after a sweep at time
1.1 seconds authentication with its tokens fails, volunteer 7 is Available
again, and request `r1` is Closed. -/
theorem chat_session_ttl_spec_witness :
    createSession
        { sessions := [], volunteers := [(7, Availability.busy)]
          requests := [("r1", RequestStatus.assigned)] }
        (mkAssignment "a1" "r1" 7 0 1) "room1" 0 1 = coordFixture
    ∧ expiredSessionFixture.expiresAt = expiredSessionFixture.createdAt + 1
    ∧ authenticate (sweep coordFixture (11/10)) "room1" 0 = none
    ∧ lookupAvail (sweep coordFixture (11/10)).volunteers
        expiredSessionFixture.volunteerId = some Availability.available
    ∧ lookupRequest (sweep coordFixture (11/10)).requests
        expiredSessionFixture.requestId = some RequestStatus.closed :=
  ⟨by
      simp only [createSession, coordFixture, expiredSessionFixture, mkAssignment]
      norm_num,
    by norm_num [expiredSessionFixture],
    chat_session_ttl_spec.2.1 coordFixture (11/10) "room1" 0 (by
      intro s hs _
      simp only [coordFixture, List.mem_singleton] at hs
      subst hs
      norm_num [expiredSessionFixture]),
    chat_session_ttl_spec.2.2.1 coordFixture (11/10) expiredSessionFixture
      (by simp [coordFixture]) (by norm_num [expiredSessionFixture]) rfl
      (by decide),
    chat_session_ttl_spec.2.2.2 coordFixture (11/10) expiredSessionFixture
      (by simp [coordFixture]) (by norm_num [expiredSessionFixture])
      (by decide)⟩

end SosNairobi
